import Mathlib

/-!
Verification of the rss-sports-feed core against its specification.

The TypeScript source is embedded shallowly:

* machine-level details (the PNG encoder, the canvas rasterizer) are kept
  abstract: a render is represented by the exact sequence of canvas drawing
  commands the renderer issues, which determines the encoded bytes;
* `Map` objects become association lists with the same update discipline
  (replace in place when the key is present, append otherwise);
* wall-clock time (`Date.now()`) becomes an explicit integer argument;
* fallible I/O (disk reads and writes, HTTP downloads) becomes explicit
  oracle arguments returning `Except`/`Bool` results, so every behaviour of
  the environment is quantified over;
* JavaScript truthiness tests on optional strings and numbers are translated
  case by case (absent, empty string and zero are falsy).
-/

/-- Raw image bytes (a `Buffer` in the source). -/
def Bytes : Type := List Nat

instance : DecidableEq Bytes := by
  unfold Bytes
  infer_instance

instance : Repr Bytes := by
  unfold Bytes
  infer_instance

/-- Association-list lookup, embedding `Map.get` from JavaScript. -/
def mapFind {β : Type} (m : List (String × β)) (k : String) : Option β :=
  match m with
  | [] => none
  | (k2, v) :: rest => if k2 = k then some v else mapFind rest k

/-- Association-list update, embedding `Map.set` from JavaScript: replace the
binding in place when the key is present, append otherwise. -/
def mapInsert {β : Type} (m : List (String × β)) (k : String) (v : β) :
    List (String × β) :=
  match m with
  | [] => [(k, v)]
  | (k2, v2) :: rest =>
    if k2 = k then (k, v) :: rest else (k2, v2) :: mapInsert rest k v

theorem mapFind_insert_self {β : Type} (m : List (String × β)) (k : String) (v : β) :
    mapFind (mapInsert m k v) k = some v := by
  induction m with
  | nil => simp [mapInsert, mapFind]
  | cons head tail ih =>
    obtain ⟨k2, v2⟩ := head
    by_cases h : k2 = k
    · simp [mapInsert, mapFind, h]
    · simp [mapInsert, mapFind, h, ih]

/-! ## Data model (src/types.ts) -/

/-- `Team` from src/types.ts.  `record` and `logoUrl` are optional fields. -/
structure Team where
  name : String
  abbr : String
  color : String
  record : Option String
  logoUrl : Option String
deriving Repr, DecidableEq

/-- `GameScore` from src/types.ts. -/
structure GameScore where
  home : Nat
  away : Nat
deriving Repr, DecidableEq

/-- `GameStatus` from src/types.ts.  The TypeScript type annotates `state`
with the union `pre | in_progress | final`, but the value is an arbitrary
runtime string (the data arrives from JSON), and the renderer branches on it
by string comparison, so the embedding keeps it as `String`. -/
structure GameStatus where
  state : String
  period : Option Nat
  clock : Option String
  detail : Option String
deriving Repr, DecidableEq

/-- `Game` from src/types.ts. -/
structure Game where
  id : String
  league : String
  home : Team
  away : Team
  score : GameScore
  status : GameStatus
  updatedAt : String
deriving Repr, DecidableEq

/-! ## Image cache (src/utils/cache.ts) -/

/-- `CacheEntry` from src/utils/cache.ts. -/
structure CacheEntry where
  buffer : Bytes
  generatedAt : Int
  dataHash : String
deriving Repr, DecidableEq

/-- The in-memory state of an `ImageCache` instance: the private `cache` map
together with the configured `ttlMs`.  The storage directory only matters to
the disk oracle and is omitted. -/
structure ImageCache where
  cache : List (String × CacheEntry)
  ttlMs : Int
deriving Repr, DecidableEq

/-- `ImageCache.get`: return the in-memory bytes when present, else `null`. -/
def ImageCache.get (c : ImageCache) (id : String) : Option Bytes :=
  match mapFind c.cache id with
  | none => none
  | some entry => some entry.buffer

/-- `ImageCache.isStale`.  `now` stands for `Date.now()` at the moment of the
call. -/
def ImageCache.isStale (c : ImageCache) (now : Int) (id dataHash : String) :
    Bool :=
  match mapFind c.cache id with
  | none => true
  | some entry =>
    if entry.dataHash ≠ dataHash then true
    else if now - entry.generatedAt > c.ttlMs then true
    else false

/-- The in-memory effect of `ImageCache.set`: store the entry with
`generatedAt` stamped to the current time.  In the source this map update
happens before the `fs.writeFile` call. -/
def ImageCache.set (c : ImageCache) (now : Int) (id : String) (buffer : Bytes)
    (dataHash : String) : ImageCache :=
  { c with cache := mapInsert c.cache id ⟨buffer, now, dataHash⟩ }

/-- The full effect of `ImageCache.set` including the disk write: the map is
updated first, then `fs.writeFile` runs; its result (`writeResult`, supplied
by the environment) is the result of the returned promise — the method has no
try/catch, so a rejected write propagates to the caller of `set` while the
in-memory entry stays in place. -/
def ImageCache.setRun (c : ImageCache) (now : Int) (id : String)
    (buffer : Bytes) (dataHash : String) (writeResult : Except String Unit) :
    ImageCache × Except String Unit :=
  (c.set now id buffer dataHash, writeResult)

/-- `ImageCache.loadFromDisk`: read `<id>.png` from the images directory via
the disk oracle; any failure is caught and mapped to `null`. -/
def ImageCache.loadFromDisk (diskRead : String → Except String Bytes)
    (id : String) : Option Bytes :=
  match diskRead (id ++ ".png") with
  | Except.ok b => some b
  | Except.error _ => none

/-- `ImageCache.getAll`: return the underlying map. -/
def ImageCache.getAll (c : ImageCache) : List (String × CacheEntry) :=
  c.cache

/-- One observer call against the cache: either `get(id)` or
`isStale(now, id, dataHash)`. -/
inductive CacheObs
| getQ (id : String)
| isStaleQ (now : Int) (id dataHash : String)
deriving Repr, DecidableEq

/-- The state left behind by one observer call.  `get` and `isStale` only
read the map (`Map.get` mutates nothing), so the state they produce is the
state they were given. -/
def ImageCache.runObs (c : ImageCache) (o : CacheObs) : ImageCache :=
  match o with
  | CacheObs.getQ _ => c
  | CacheObs.isStaleQ _ _ _ => c

/-- The state after a whole sequence of observer calls. -/
def ImageCache.runObsList (c : ImageCache) (os : List CacheObs) : ImageCache :=
  os.foldl ImageCache.runObs c

/-! ## Claim C1: the staleness predicate -/

/-- Computation of `isStale` immediately following a `set` on the same
identifier: the freshly inserted entry is found, so only the fingerprint
comparison and the age test remain. -/
theorem isStale_after_set (c : ImageCache) (now t : Int) (id : String)
    (buffer : Bytes) (fp fp2 : String) :
    (c.set now id buffer fp).isStale t id fp2 =
      if fp ≠ fp2 then true
      else if t - now > c.ttlMs then true else false := by
  unfold ImageCache.isStale ImageCache.set
  simp only [mapFind_insert_self]

/-- Claim C1: `ImageCache.isStale(id, fp)` is true exactly when no entry
exists for `id`, or the stored fingerprint differs from `fp`, or the age of
the entry exceeds the configured time-to-live; it is true for an identifier
never set, false immediately after `set(id, bytes, fp)` with the same `fp`,
and true again under a different fingerprint or once the time-to-live has
elapsed since the last `set`. -/
theorem imageCache_isStale_spec (c : ImageCache) (now later : Int)
    (id fp fp2 : String) (buffer : Bytes) (httl : 0 ≤ c.ttlMs) :
    (c.isStale now id fp = true ↔
      mapFind c.cache id = none ∨
        (∃ e, mapFind c.cache id = some e ∧
          (e.dataHash ≠ fp ∨ now - e.generatedAt > c.ttlMs)))
    ∧ (mapFind c.cache id = none → c.isStale now id fp = true)
    ∧ ((c.set now id buffer fp).isStale now id fp = false)
    ∧ (fp2 ≠ fp → (c.set now id buffer fp).isStale now id fp2 = true)
    ∧ (later - now > c.ttlMs →
        (c.set now id buffer fp).isStale later id fp = true) := by
  refine ⟨?_, ?_, ?_, ?_, ?_⟩
  · unfold ImageCache.isStale
    cases h : mapFind c.cache id with
    | none => simp
    | some entry =>
      by_cases hd : entry.dataHash = fp <;>
        by_cases ha : now - entry.generatedAt > c.ttlMs <;>
          simp [hd, ha]
  · intro hnone
    unfold ImageCache.isStale
    simp [hnone]
  · rw [isStale_after_set]
    have h1 : ¬ (fp ≠ fp) := by simp
    rw [if_neg h1, if_neg (by omega : ¬ (now - now > c.ttlMs))]
  · intro hne
    rw [isStale_after_set]
    exact if_pos (fun h => hne h.symm)
  · intro hage
    rw [isStale_after_set]
    have h1 : ¬ (fp ≠ fp) := by simp
    rw [if_neg h1, if_pos hage]

/-- Witness for C1: the hypothesis `0 ≤ ttlMs` holds at a concrete cache with
a 1000 ms time-to-live, and the claim follows there. -/
theorem imageCache_isStale_spec_witness :
    (0 : Int) ≤ (1000 : Int) ∧
    ((ImageCache.isStale ⟨[], 1000⟩ 0 "g1" "a" = true ↔
      mapFind (ImageCache.cache ⟨[], 1000⟩) "g1" = none ∨
        (∃ e, mapFind (ImageCache.cache ⟨[], 1000⟩) "g1" = some e ∧
          (e.dataHash ≠ "a" ∨ 0 - e.generatedAt > (1000 : Int))))
    ∧ (mapFind (ImageCache.cache ⟨[], 1000⟩) "g1" = none →
        ImageCache.isStale ⟨[], 1000⟩ 0 "g1" "a" = true)
    ∧ ((ImageCache.set ⟨[], 1000⟩ 0 "g1" [1] "a").isStale 0 "g1" "a" = false)
    ∧ ("b" ≠ "a" → (ImageCache.set ⟨[], 1000⟩ 0 "g1" [1] "a").isStale 0 "g1" "b" = true)
    ∧ ((2000 : Int) - 0 > (1000 : Int) →
        (ImageCache.set ⟨[], 1000⟩ 0 "g1" [1] "a").isStale 2000 "g1" "a" = true)) :=
  ⟨by decide, imageCache_isStale_spec ⟨[], 1000⟩ 0 2000 "g1" "a" "b" [1] (by decide)⟩

/-! ## Claim C10: get and isStale are read-only -/

/-- Claim C10: `get` and `isStale` are pure observers — any sequence of such
calls leaves the cache state unchanged, so later `get`, `isStale` and
`getAll` results are exactly what they were before the sequence ran. -/
theorem imageCache_observers_readonly (c : ImageCache) (os : List CacheObs) :
    c.runObsList os = c
    ∧ (∀ id, (c.runObsList os).get id = c.get id)
    ∧ (∀ now id dataHash,
        (c.runObsList os).isStale now id dataHash = c.isStale now id dataHash)
    ∧ (c.runObsList os).getAll = c.getAll := by
  have hrun : c.runObsList os = c := by
    induction os with
    | nil => rfl
    | cons o rest ih =>
      have hstep : ImageCache.runObs c o = c := by
        cases o <;> rfl
      calc c.runObsList (o :: rest)
          = (ImageCache.runObs c o).runObsList rest := rfl
        _ = c.runObsList rest := by rw [hstep]
        _ = c := by
            unfold ImageCache.runObsList at ih ⊢
            exact ih
  exact ⟨hrun, fun id => by rw [hrun], fun now id h2 => by rw [hrun], by rw [hrun]⟩

/-! ## Renderer (src/render/renderTicker.ts)

The renderer issues a sequence of canvas commands; the encoded PNG is a
deterministic function of that sequence, so the embedding represents the
output by the command list itself.  Each command records the fill style,
font, alignment and shadow in force when it was issued (the source always
sets these context fields immediately before the corresponding call).
Coordinates are rationals, matching JavaScript arithmetic on these inputs
exactly (all values involved are small halves). -/

/-- A canvas fill style: a solid colour string or a linear gradient. -/
inductive FillStyle
| color (c : String)
| linearGradient (x0 y0 x1 y1 : ℚ) (stops : List (ℚ × String))
deriving Repr, DecidableEq

/-- A drop-shadow configuration (`shadowColor`, `shadowBlur`, offsets). -/
structure ShadowSpec where
  color : String
  blur : ℚ
  offsetX : ℚ
  offsetY : ℚ
deriving Repr, DecidableEq

/-- One canvas drawing command.  `clippedImage` stands for the
save/arc/clip/drawImage/restore sequence that paints a decoded logo inside a
circle; `fillCircle`/`strokeCircle` stand for beginPath/arc/fill resp.
stroke. -/
inductive DrawOp
| fillRect (style : FillStyle) (x y w h : ℚ)
| strokeRect (strokeStyle : String) (lineWidth : ℚ) (x y w h : ℚ)
| fillText (style : FillStyle) (font : String) (align : String)
    (baseline : String) (shadow : Option ShadowSpec) (text : String) (x y : ℚ)
| clippedImage (bytes : Bytes) (cx cy r : ℚ) (x y w h : ℚ)
| fillCircle (style : FillStyle) (cx cy r : ℚ)
| strokeCircle (strokeStyle : String) (lineWidth : ℚ) (cx cy r : ℚ)
deriving Repr, DecidableEq

/-- A CSS font shorthand string as built by the source template literals,
`"<weight> <size>px <family>"`. -/
def fontStr (weight : String) (size : ℚ) (family : String) : String :=
  weight ++ " " ++ toString size ++ "px " ++ family

/-- A size-only font string, `"<size>px <family>"` (used for the record). -/
def fontStrNoWeight (size : ℚ) (family : String) : String :=
  toString size ++ "px " ++ family

/-- The configuration constants of src/config.ts that the renderer reads,
flattened: `display.width/height/scaleFactor`, the `ticker` layout block
(team row 80, score panel 114, logo 70 with padding 6), the `colors` block
and the `fonts` block (family Arial, Helvetica, sans-serif; all weights in
use are bold; record text is drawn without a weight).  The claims proved
below do not depend on the particular values, only on the command structure
built from them. -/
structure TickerConfig where
  width : ℚ
  height : ℚ
  scaleFactor : ℚ
  teamRowHeight : ℚ
  scorePanelWidth : ℚ
  logoSize : ℚ
  logoPadding : ℚ
  background : String
  scorePanelBg : String
  statusBarBg : String
  dividerColor : String
  dimText : String
  finalColor : String
  preColor : String
  liveColor : String
  fontFamily : String
  teamAbbrWeight : String
  teamAbbrSize : ℚ
  recordSize : ℚ
  scoreWeight : String
  scoreSize : ℚ
  leagueWeight : String
  leagueSize : ℚ
  statusWeight : String
  statusSize : ℚ
  liveWeight : String
  liveSize : ℚ
deriving Repr, DecidableEq

/-- The concrete `config` object of src/config.ts (its second document sits
inside src/src/providers/nhl.ts after the document separator). -/
def config : TickerConfig :=
  { width := 384
    height := 192
    scaleFactor := 2
    teamRowHeight := 80
    scorePanelWidth := 114
    logoSize := 70
    logoPadding := 6
    background := "#000000"
    scorePanelBg := "#141414"
    statusBarBg := "#0c0c0c"
    dividerColor := "#333333"
    dimText := "#888888"
    finalColor := "#999999"
    preColor := "#4499ff"
    liveColor := "#ff3333"
    fontFamily := "Arial, Helvetica, sans-serif"
    teamAbbrWeight := "bold"
    teamAbbrSize := 28
    recordSize := 13
    scoreWeight := "bold"
    scoreSize := 46
    leagueWeight := "bold"
    leagueSize := 12
    statusWeight := "bold"
    statusSize := 14
    liveWeight := "bold"
    liveSize := 12 }

/-- The fallback badge drawn by `drawLogo` when no logo bytes are available
or decoding fails: semi-transparent dark disc, light ring, centred
abbreviation. -/
def fallbackBadge (team : Team) (x y size : ℚ) : List DrawOp :=
  let cx := x + size / 2
  let cy := y + size / 2
  let r := size / 2 - 1
  [DrawOp.fillCircle (FillStyle.color "rgba(0,0,0,0.35)") cx cy r,
   DrawOp.strokeCircle "rgba(255,255,255,0.25)" 2 cx cy r,
   DrawOp.fillText (FillStyle.color "#ffffff")
     (fontStr "bold" ((round (size * (36 / 100)) : ℤ) : ℚ) config.fontFamily)
     "center" "middle" none team.abbr cx cy]

/-- `drawLogo`: resolve the logo bytes (`logoBytes` is the result of
`logoCache.getLogo(team.logoUrl)`), attempt to decode them (`decodeOk`
models `loadImage` succeeding), and either paint the circle-clipped image or
fall through to the fallback badge. -/
def drawLogo (team : Team) (x y size : ℚ) (logoBytes : Option Bytes)
    (decodeOk : Bytes → Bool) : List DrawOp :=
  match logoBytes with
  | some b =>
    if decodeOk b then
      [DrawOp.clippedImage b (x + size / 2) (y + size / 2) (size / 2) x y size size]
    else fallbackBadge team x y size
  | none => fallbackBadge team x y size

/-- Which call site of `drawTeamRow` this is.  In the source the winner test
compares `team` against `game.away` and `game.home` by JavaScript reference
equality; the function is called exactly twice, with `team` aliased to
`game.away` (row 1) and to `game.home` (row 2), so the comparison evaluates
to the side of the call. -/
inductive RowSide
| away
| home
deriving Repr, DecidableEq

/-- JavaScript truthiness of the optional record string:
`!!(team.record && team.record.length > 0)`. -/
def teamHasRecord (team : Team) : Bool :=
  match team.record with
  | none => false
  | some r => decide (0 < r.length)

/-- The `isWinner` test of `drawTeamRow`, with the reference-equality
comparisons resolved per call site (see `RowSide`). -/
def winnerFlag (side : RowSide) (game : Game) : Bool :=
  match side with
  | RowSide.away => decide (game.score.away > game.score.home)
  | RowSide.home => decide (game.score.home > game.score.away)

/-- `drawTeamRow`: nameplate, gradient overlay, score panel, separator,
logo, abbreviation, optional record, then the score panel content (dash for
`pre`, otherwise the score with a drop shadow plus, for won `final` games,
the accent bar). -/
def drawTeamRow (team : Team) (score : Nat) (y h totalW scorePanX scorePanW
    logoSize logoPad : ℚ) (logos : Option String → Option Bytes)
    (decodeOk : Bytes → Bool) (gameState : String) (game : Game)
    (side : RowSide) : List DrawOp :=
  let logoX := logoPad
  let logoY := y + (h - logoSize) / 2
  let textX := logoPad + logoSize + 10
  let hasRecord := teamHasRecord team
  let scoreCX := scorePanX + scorePanW / 2
  let isWinner : Bool := winnerFlag side game
  [DrawOp.fillRect (FillStyle.color team.color) 0 y scorePanX h,
   DrawOp.fillRect
     (FillStyle.linearGradient 0 y 0 (y + h)
       [(0, "rgba(255,255,255,0.08)"), (1 / 2, "rgba(0,0,0,0)"),
        (1, "rgba(0,0,0,0.20)")]) 0 y scorePanX h,
   DrawOp.fillRect (FillStyle.color config.scorePanelBg) scorePanX y scorePanW h,
   DrawOp.fillRect (FillStyle.color "#000000") scorePanX y 2 h]
  ++ drawLogo team logoX logoY logoSize (logos team.logoUrl) decodeOk
  ++ [DrawOp.fillText (FillStyle.color "#ffffff")
        (fontStr config.teamAbbrWeight config.teamAbbrSize config.fontFamily)
        "left" "middle" none team.abbr textX
        (y + h / 2 - (if hasRecord then 8 else 0))]
  ++ (if hasRecord then
        [DrawOp.fillText (FillStyle.color "rgba(255,255,255,0.55)")
          (fontStrNoWeight config.recordSize config.fontFamily)
          "left" "middle" none (team.record.getD "") textX (y + h / 2 + 14)]
      else [])
  ++ (if gameState = "pre" then
        [DrawOp.fillText (FillStyle.color "#444444")
          (fontStr "bold" ((round (config.scoreSize * (55 / 100)) : ℤ) : ℚ)
            config.fontFamily)
          "center" "middle" none "–" scoreCX (y + h / 2)]
      else
        [DrawOp.fillText (FillStyle.color "#ffffff")
          (fontStr config.scoreWeight config.scoreSize config.fontFamily)
          "center" "middle" (some ⟨"rgba(0,0,0,0.6)", 3, 1, 1⟩)
          (toString score) scoreCX (y + h / 2)]
        ++ (if gameState = "final" then
              (if isWinner then
                [DrawOp.fillRect (FillStyle.color team.color)
                  (scorePanX + 20) (y + h - 4) (scorePanW - 40) 3]
              else [])
            else []))

/-- The period label, `status.period ? "Q" + period : ""` (`0` is falsy). -/
def periodLabel (status : GameStatus) : String :=
  match status.period with
  | none => ""
  | some p => if p = 0 then "" else "Q" ++ toString p

/-- The clock text, `status.clock || ""`. -/
def clockText (status : GameStatus) : String :=
  match status.clock with
  | none => ""
  | some s => s

/-- The scheduled-state centre text, `status.detail || "UPCOMING"` (an empty
detail string is falsy and also yields the placeholder). -/
def detailText (status : GameStatus) : String :=
  match status.detail with
  | none => "UPCOMING"
  | some d => if d = "" then "UPCOMING" else d

/-- `drawStatusBar`: background, top border, league badge, the centred
status text (branching on the status state string with the scheduled branch
as the default), and the live indicator only for `in_progress`. -/
def drawStatusBar (game : Game) (y h w : ℚ) : List DrawOp :=
  let cy := y + h / 2 + 1
  let centerX := w / 2
  [DrawOp.fillRect (FillStyle.color config.statusBarBg) 0 y w h,
   DrawOp.fillRect (FillStyle.color config.dividerColor) 0 y w 1,
   DrawOp.fillText (FillStyle.color config.dimText)
     (fontStr config.leagueWeight config.leagueSize config.fontFamily)
     "left" "middle" none game.league 8 cy]
  ++ (if game.status.state = "in_progress" then
        [DrawOp.fillText (FillStyle.color "#ffffff")
          (fontStr config.statusWeight config.statusSize config.fontFamily)
          "center" "middle" none
          (periodLabel game.status ++ "  ·  " ++ clockText game.status)
          centerX cy]
      else if game.status.state = "final" then
        [DrawOp.fillText (FillStyle.color config.finalColor)
          (fontStr config.statusWeight config.statusSize config.fontFamily)
          "center" "middle" none "FINAL" centerX cy]
      else
        [DrawOp.fillText (FillStyle.color config.preColor)
          (fontStr config.statusWeight config.statusSize config.fontFamily)
          "center" "middle" none (detailText game.status) centerX cy])
  ++ (if game.status.state = "in_progress" then
        [DrawOp.fillCircle (FillStyle.color config.liveColor) (w - 8 - 38) cy 4,
         DrawOp.fillText (FillStyle.color config.liveColor)
           (fontStr config.liveWeight config.liveSize config.fontFamily)
           "right" "middle" none "LIVE" (w - 8) cy]
      else [])

/-- The output of one render: the supersampling scale, the command sequence
issued on the working canvas, and whether the final downscale branch ran.
The encoded PNG bytes are a deterministic function of this value. -/
structure RenderOutput where
  scale : ℚ
  ops : List DrawOp
  downscaled : Bool
deriving Repr, DecidableEq

/-- `renderTickerImage`: black base, away row, divider, home row, status
bar, outer border, then the optional downscale.  `logos` is the logo
resolver (`logoCache.getLogo`) restricted to its result bytes, and
`decodeOk` models `loadImage` succeeding on given bytes. -/
def renderTickerImage (game : Game) (logos : Option String → Option Bytes)
    (decodeOk : Bytes → Bool) : RenderOutput :=
  let W := config.width
  let H := config.height
  let rowH := config.teamRowHeight
  let scorePanW := config.scorePanelWidth
  let scorePanX := W - scorePanW
  let logoSz := config.logoSize
  let logoPad := config.logoPadding
  let row1Y : ℚ := 0
  let dividerY := rowH
  let row2Y := rowH + 1
  let statusY := rowH * 2 + 1
  let statusH := H - statusY
  { scale := config.scaleFactor
    ops :=
      [DrawOp.fillRect (FillStyle.color config.background) 0 0 W H]
      ++ drawTeamRow game.away game.score.away row1Y rowH W scorePanX
          scorePanW logoSz logoPad logos decodeOk game.status.state game
          RowSide.away
      ++ [DrawOp.fillRect (FillStyle.color "#000000") 0 dividerY W 1]
      ++ drawTeamRow game.home game.score.home row2Y rowH W scorePanX
          scorePanW logoSz logoPad logos decodeOk game.status.state game
          RowSide.home
      ++ drawStatusBar game statusY statusH W
      ++ [DrawOp.strokeRect "rgba(255,255,255,0.08)" 1 (1 / 2) (1 / 2)
            (W - 1) (H - 1)]
    downscaled := decide (config.scaleFactor > 1) }

/-! ## Observations on a render

The concrete layout puts each kind of text at a distinct x coordinate:
score-panel content at `270 + 114/2 = 327`, the status-bar centre text at
`384/2 = 192`, the abbreviation and record at `6 + 70 + 10 = 86`, the
fallback-badge abbreviation at `6 + 70/2 = 41`, the league badge at `8` and
the LIVE text at `384 - 8 = 376`; the live dot circle sits at
`376 - 38 = 338` while the badge circles sit at `41`.  The win-accent bar is
the unique `fillRect` of height `3` (rows are `80` or `192` high, dividers
`1`, the status bar `31`). -/

/-- Is this command the win-accent bar? -/
def isAccentBar : DrawOp → Bool
  | DrawOp.fillRect _ _ _ _ h => decide (h = 3)
  | _ => false

/-- The win-accent bars appearing in a command sequence. -/
def accentBars (ops : List DrawOp) : List DrawOp :=
  ops.filter isAccentBar

/-- Is this command text drawn inside a score panel (x = 327)? -/
def isPanelText : DrawOp → Bool
  | DrawOp.fillText _ _ _ _ _ _ x _ => decide (x = 327)
  | _ => false

/-- The score-panel texts appearing in a command sequence. -/
def scorePanelTexts (ops : List DrawOp) : List DrawOp :=
  ops.filter isPanelText

/-- Is this command the centred status-bar text (x = 192)? -/
def isCenterText : DrawOp → Bool
  | DrawOp.fillText _ _ _ _ _ _ x _ => decide (x = 192)
  | _ => false

/-- The status-bar centre texts appearing in a command sequence. -/
def statusCenterTexts (ops : List DrawOp) : List DrawOp :=
  ops.filter isCenterText

/-- Is this command part of the live indicator (the dot at x = 338 or the
LIVE text at x = 376)? -/
def isLiveOp : DrawOp → Bool
  | DrawOp.fillCircle _ cx _ _ => decide (cx = 338)
  | DrawOp.fillText _ _ _ _ _ _ x _ => decide (x = 376)
  | _ => false

/-- The live-indicator commands appearing in a command sequence. -/
def liveIndicatorOps (ops : List DrawOp) : List DrawOp :=
  ops.filter isLiveOp

/-- The dash command the score panel of a row at offset `y` receives in the
scheduled state: dimmed colour, bold, 55 % of the score size. -/
def preDashOp (y : ℚ) : DrawOp :=
  DrawOp.fillText (FillStyle.color "#444444")
    (fontStr "bold" ((round (config.scoreSize * (55 / 100)) : ℤ) : ℚ)
      config.fontFamily)
    "center" "middle" none "–" 327 (y + 40)

/-- The score command the score panel of a row at offset `y` receives
outside the scheduled state: white, full score font, centred, with a drop
shadow. -/
def scoreTextOp (score : Nat) (y : ℚ) : DrawOp :=
  DrawOp.fillText (FillStyle.color "#ffffff")
    (fontStr config.scoreWeight config.scoreSize config.fontFamily)
    "center" "middle" (some ⟨"rgba(0,0,0,0.6)", 3, 1, 1⟩)
    (toString score) 327 (y + 40)

/-- The win-accent bar of the away row (row offset 0, so y = 76). -/
def awayAccentBar (g : Game) : DrawOp :=
  DrawOp.fillRect (FillStyle.color g.away.color) 290 76 74 3

/-- The win-accent bar of the home row (row offset 81, so y = 157). -/
def homeAccentBar (g : Game) : DrawOp :=
  DrawOp.fillRect (FillStyle.color g.home.color) 290 157 74 3

/-- The scheduled-style status-bar centre text with content `t`. -/
def preStatusOp (t : String) : DrawOp :=
  DrawOp.fillText (FillStyle.color config.preColor)
    (fontStr config.statusWeight config.statusSize config.fontFamily)
    "center" "middle" none t 192 (355 / 2)

/-- `drawLogo`, as invoked by the team rows (x = 6, size = 70), contributes
nothing to any of the four observations. -/
theorem drawLogo_filters (team : Team) (y : ℚ) (ob : Option Bytes)
    (d : Bytes → Bool) :
    (drawLogo team 6 y 70 ob d).filter isAccentBar = []
    ∧ (drawLogo team 6 y 70 ob d).filter isPanelText = []
    ∧ (drawLogo team 6 y 70 ob d).filter isCenterText = []
    ∧ (drawLogo team 6 y 70 ob d).filter isLiveOp = [] := by
  cases ob with
  | none =>
    refine ⟨?_, ?_, ?_, ?_⟩ <;>
      norm_num [drawLogo, fallbackBadge, isAccentBar, isPanelText,
        isCenterText, isLiveOp, List.filter]
  | some b =>
    cases hdb : d b <;>
      refine ⟨?_, ?_, ?_, ?_⟩ <;>
        norm_num [drawLogo, fallbackBadge, hdb, isAccentBar, isPanelText,
          isCenterText, isLiveOp, List.filter]
/-- The observations contributed by one team row, as invoked by the
renderer (geometry 80/384/270/114/70/6): the win-accent bar appears exactly
for a won final, the score-panel text is the dash for `pre` and the score
otherwise, and the row contributes no status-centre text and no
live-indicator command. -/
theorem drawTeamRow_filters (team : Team) (score : Nat) (y : ℚ)
    (logos : Option String → Option Bytes) (d : Bytes → Bool) (st : String)
    (g : Game) (side : RowSide) :
    (drawTeamRow team score y 80 384 270 114 70 6 logos d st g side).filter
        isAccentBar =
      (if st = "final" then
        (if winnerFlag side g then
          [DrawOp.fillRect (FillStyle.color team.color) 290 (y + 76) 74 3]
        else [])
      else [])
    ∧ (drawTeamRow team score y 80 384 270 114 70 6 logos d st g side).filter
        isPanelText =
      (if st = "pre" then [preDashOp y] else [scoreTextOp score y])
    ∧ (drawTeamRow team score y 80 384 270 114 70 6 logos d st g side).filter
        isCenterText = []
    ∧ (drawTeamRow team score y 80 384 270 114 70 6 logos d st g side).filter
        isLiveOp = [] := by
  obtain ⟨hA, hP, hC, hL⟩ := drawLogo_filters team (y + 5) (logos team.logoUrl) d
  have hlogoY : y + (80 - 70) / 2 = y + 5 := by norm_num
  refine ⟨?_, ?_, ?_, ?_⟩ <;>
    · unfold drawTeamRow
      rw [hlogoY]
      cases hrec : teamHasRecord team <;>
        by_cases hpre : st = "pre" <;>
          by_cases hfin : st = "final" <;>
            cases hwin : winnerFlag side g <;>
              simp +decide [hpre, hfin, hrec, hwin, List.filter_append, hA, hP, hC, hL,
                isAccentBar, isPanelText, isCenterText, isLiveOp, List.filter,
                preDashOp, scoreTextOp] <;>
                ring_nf <;> norm_num
/-- The observations contributed by the status bar, as invoked by the
renderer (y = 161, h = 31, w = 384): no accent bar and no score-panel text;
the centre text follows the status state with the scheduled branch as
default; the live indicator appears exactly for `in_progress`. -/
theorem drawStatusBar_filters (g : Game) :
    (drawStatusBar g 161 31 384).filter isAccentBar = []
    ∧ (drawStatusBar g 161 31 384).filter isPanelText = []
    ∧ (drawStatusBar g 161 31 384).filter isCenterText =
      (if g.status.state = "in_progress" then
        [DrawOp.fillText (FillStyle.color "#ffffff")
          (fontStr config.statusWeight config.statusSize config.fontFamily)
          "center" "middle" none
          (periodLabel g.status ++ "  ·  " ++ clockText g.status) 192 (355 / 2)]
      else if g.status.state = "final" then
        [DrawOp.fillText (FillStyle.color config.finalColor)
          (fontStr config.statusWeight config.statusSize config.fontFamily)
          "center" "middle" none "FINAL" 192 (355 / 2)]
      else [preStatusOp (detailText g.status)])
    ∧ (drawStatusBar g 161 31 384).filter isLiveOp =
      (if g.status.state = "in_progress" then
        [DrawOp.fillCircle (FillStyle.color config.liveColor) 338 (355 / 2) 4,
         DrawOp.fillText (FillStyle.color config.liveColor)
           (fontStr config.liveWeight config.liveSize config.fontFamily)
           "right" "middle" none "LIVE" 376 (355 / 2)]
      else []) := by
  refine ⟨?_, ?_, ?_, ?_⟩ <;>
    · unfold drawStatusBar
      by_cases hin : g.status.state = "in_progress" <;>
        by_cases hfin : g.status.state = "final" <;>
          simp +decide [hin, hfin, List.filter_append, isAccentBar,
            isPanelText, isCenterText, isLiveOp, List.filter, preStatusOp] <;>
            ring_nf <;> norm_num
/-- The four observations computed over a whole render.  The fixed base,
divider and border commands contribute nothing, so the result combines the
two team rows (away at offset 0, home at offset 81) and the status bar. -/
theorem renderTicker_filters (g : Game) (logos : Option String → Option Bytes)
    (d : Bytes → Bool) :
    accentBars (renderTickerImage g logos d).ops =
      ((if g.status.state = "final" then
          (if winnerFlag RowSide.away g then [awayAccentBar g] else [])
        else []) ++
       (if g.status.state = "final" then
          (if winnerFlag RowSide.home g then [homeAccentBar g] else [])
        else []))
    ∧ scorePanelTexts (renderTickerImage g logos d).ops =
      ((if g.status.state = "pre" then [preDashOp 0]
        else [scoreTextOp g.score.away 0]) ++
       (if g.status.state = "pre" then [preDashOp 81]
        else [scoreTextOp g.score.home 81]))
    ∧ statusCenterTexts (renderTickerImage g logos d).ops =
      (if g.status.state = "in_progress" then
        [DrawOp.fillText (FillStyle.color "#ffffff")
          (fontStr config.statusWeight config.statusSize config.fontFamily)
          "center" "middle" none
          (periodLabel g.status ++ "  ·  " ++ clockText g.status) 192 (355 / 2)]
      else if g.status.state = "final" then
        [DrawOp.fillText (FillStyle.color config.finalColor)
          (fontStr config.statusWeight config.statusSize config.fontFamily)
          "center" "middle" none "FINAL" 192 (355 / 2)]
      else [preStatusOp (detailText g.status)])
    ∧ liveIndicatorOps (renderTickerImage g logos d).ops =
      (if g.status.state = "in_progress" then
        [DrawOp.fillCircle (FillStyle.color config.liveColor) 338 (355 / 2) 4,
         DrawOp.fillText (FillStyle.color config.liveColor)
           (fontStr config.liveWeight config.liveSize config.fontFamily)
           "right" "middle" none "LIVE" 376 (355 / 2)]
      else []) := by
  obtain ⟨rA1, rP1, rC1, rL1⟩ :=
    drawTeamRow_filters g.away g.score.away 0 logos d g.status.state g
      RowSide.away
  obtain ⟨rA2, rP2, rC2, rL2⟩ :=
    drawTeamRow_filters g.home g.score.home 81 logos d g.status.state g
      RowSide.home
  obtain ⟨sA, sP, sC, sL⟩ := drawStatusBar_filters g
  have hops : (renderTickerImage g logos d).ops =
      [DrawOp.fillRect (FillStyle.color config.background) 0 0 384 192]
      ++ drawTeamRow g.away g.score.away 0 80 384 270 114 70 6 logos d
          g.status.state g RowSide.away
      ++ [DrawOp.fillRect (FillStyle.color "#000000") 0 80 384 1]
      ++ drawTeamRow g.home g.score.home 81 80 384 270 114 70 6 logos d
          g.status.state g RowSide.home
      ++ drawStatusBar g 161 31 384
      ++ [DrawOp.strokeRect "rgba(255,255,255,0.08)" 1 (1 / 2) (1 / 2)
            383 191] := by
    unfold renderTickerImage
    norm_num [config]
  unfold accentBars scorePanelTexts statusCenterTexts liveIndicatorOps
  rw [hops]
  refine ⟨?_, ?_, ?_, ?_⟩ <;>
    · simp only [List.filter_append, rA1, rA2, rP1, rP2, rC1, rC2, rL1, rL2,
        sA, sP, sC, sL]
      simp +decide [List.filter, isAccentBar, isPanelText, isCenterText,
        isLiveOp, awayAccentBar, homeAccentBar] <;>
        norm_num
/-! ## Claims C2 - C5: renderer properties -/

/-- Claim C2: the renderer is deterministic — two runs on the same Game
with logo resolvers returning identical bytes produce identical output. -/
theorem renderTicker_deterministic (g : Game)
    (l1 l2 : Option String → Option Bytes) (d : Bytes → Bool)
    (hl : ∀ u, l1 u = l2 u) :
    renderTickerImage g l1 d = renderTickerImage g l2 d := by
  have hfun : l1 = l2 := funext hl
  rw [hfun]

/-- An always-absent logo resolver (used to instantiate witnesses). -/
def noLogos : Option String → Option Bytes := fun _ => none

/-- An always-failing image decoder (used to instantiate witnesses). -/
def noDecode : Bytes → Bool := fun _ => false

/-- A scheduled game used in concrete instantiations. -/
def preGame : Game :=
  { id := "g1"
    league := "NBA"
    home := { name := "Home", abbr := "HOM", color := "#112233",
              record := none, logoUrl := none }
    away := { name := "Away", abbr := "AWY", color := "#445566",
              record := none, logoUrl := none }
    score := { home := 0, away := 0 }
    status := { state := "pre", period := none, clock := none,
                detail := some "7:30 PM" }
    updatedAt := "2026-01-01T00:00:00Z" }

/-- A finished game (home 7, away 3) used in concrete instantiations. -/
def finalGame : Game :=
  { preGame with
    score := { home := 7, away := 3 }
    status := { state := "final", period := none, clock := none,
                detail := none } }

/-- A game whose status state is none of the three known variants. -/
def unknownStateGame : Game :=
  { preGame with
    score := { home := 7, away := 3 }
    status := { state := "halftime", period := none, clock := none,
                detail := none } }

/-- Witness for C2 at a concrete game and a pointwise-equal resolver pair. -/
theorem renderTicker_deterministic_witness :
    (∀ u, noLogos u = noLogos u) ∧
    renderTickerImage preGame noLogos noDecode =
      renderTickerImage preGame noLogos noDecode :=
  ⟨fun _ => rfl,
   renderTicker_deterministic preGame noLogos noLogos noDecode fun _ => rfl⟩

/-- Claim C3: in a final game with distinct scores exactly one score panel
carries the win-accent bar — the one of the higher-scoring team, in the
primary colour of that team; equal scores and non-final statuses produce no
accent bar. -/
theorem renderTicker_winAccent_spec (g : Game)
    (logos : Option String → Option Bytes) (d : Bytes → Bool) :
    (g.status.state = "final" → g.score.away > g.score.home →
      accentBars (renderTickerImage g logos d).ops = [awayAccentBar g])
    ∧ (g.status.state = "final" → g.score.home > g.score.away →
      accentBars (renderTickerImage g logos d).ops = [homeAccentBar g])
    ∧ (g.status.state = "final" → g.score.home = g.score.away →
      accentBars (renderTickerImage g logos d).ops = [])
    ∧ (g.status.state ≠ "final" →
      accentBars (renderTickerImage g logos d).ops = []) := by
  have hA := (renderTicker_filters g logos d).1
  refine ⟨?_, ?_, ?_, ?_⟩
  · intro hst hgt
    have h1 : winnerFlag RowSide.away g = true := by
      simp [winnerFlag]
      omega
    have h2 : winnerFlag RowSide.home g = false := by
      simp [winnerFlag]
      omega
    rw [hA, h1, h2]
    simp [hst]
  · intro hst hgt
    have h1 : winnerFlag RowSide.away g = false := by
      simp [winnerFlag]
      omega
    have h2 : winnerFlag RowSide.home g = true := by
      simp [winnerFlag]
      omega
    rw [hA, h1, h2]
    simp [hst]
  · intro hst heq
    have h1 : winnerFlag RowSide.away g = false := by
      simp [winnerFlag]
      omega
    have h2 : winnerFlag RowSide.home g = false := by
      simp [winnerFlag]
      omega
    rw [hA, h1, h2]
    simp [hst]
  · intro hst
    rw [hA]
    simp [hst]

/-- Witness for C3: the concrete final game 3 - 7 carries exactly the home
accent bar, and the concrete scheduled game carries none. -/
theorem renderTicker_winAccent_spec_witness :
    accentBars (renderTickerImage finalGame noLogos noDecode).ops =
      [homeAccentBar finalGame]
    ∧ accentBars (renderTickerImage preGame noLogos noDecode).ops = [] :=
  ⟨(renderTicker_winAccent_spec finalGame noLogos noDecode).2.1 rfl
      (by decide),
   (renderTicker_winAccent_spec preGame noLogos noDecode).2.2.2 (by decide)⟩

/-- Claim C4: a scheduled game draws the dash (dimmed colour, reduced size:
55 % of the score font, which is strictly smaller) in both score panels and
no accent bar; any other status draws the numeric scores with a drop
shadow. -/
theorem renderTicker_scheduledDash_spec (g : Game)
    (logos : Option String → Option Bytes) (d : Bytes → Bool) :
    (g.status.state = "pre" →
      scorePanelTexts (renderTickerImage g logos d).ops =
        [preDashOp 0, preDashOp 81]
      ∧ accentBars (renderTickerImage g logos d).ops = [])
    ∧ (g.status.state ≠ "pre" →
      scorePanelTexts (renderTickerImage g logos d).ops =
        [scoreTextOp g.score.away 0, scoreTextOp g.score.home 81])
    ∧ ((round (config.scoreSize * (55 / 100)) : ℤ) : ℚ) < config.scoreSize := by
  obtain ⟨hA, hP, _, _⟩ := renderTicker_filters g logos d
  refine ⟨?_, ?_, ?_⟩
  · intro hst
    have hnf : g.status.state ≠ "final" := by rw [hst]; decide
    rw [hP, hA]
    simp [hst, hnf]
  · intro hst
    rw [hP]
    simp [hst]
  · have hr : round (config.scoreSize * (55 / 100)) = 25 := by
      norm_num [config, round_eq]
    rw [hr]
    norm_num [config]

/-- Witness for C4: both branches at concrete games. -/
theorem renderTicker_scheduledDash_spec_witness :
    (scorePanelTexts (renderTickerImage preGame noLogos noDecode).ops =
        [preDashOp 0, preDashOp 81]
      ∧ accentBars (renderTickerImage preGame noLogos noDecode).ops = [])
    ∧ scorePanelTexts (renderTickerImage finalGame noLogos noDecode).ops =
        [scoreTextOp 3 0, scoreTextOp 7 81] :=
  ⟨(renderTicker_scheduledDash_spec preGame noLogos noDecode).1 rfl,
   (renderTicker_scheduledDash_spec finalGame noLogos noDecode).2.1
     (by decide)⟩
/-- Counterexample to C5: for a game whose status state is the unknown
string "halftime", the score panels draw the numeric scores, not the dash
glyphs the scheduled-state treatment would require. -/
theorem renderTicker_unknownState_counterexample :
    scorePanelTexts (renderTickerImage unknownStateGame noLogos noDecode).ops =
      [scoreTextOp 3 0, scoreTextOp 7 81]
    ∧ scorePanelTexts
        (renderTickerImage unknownStateGame noLogos noDecode).ops ≠
      [preDashOp 0, preDashOp 81] := by
  have hP := (renderTicker_filters unknownStateGame noLogos noDecode).2.1
  constructor
  · rw [hP]
    simp +decide [unknownStateGame, preGame]
  · rw [hP]
    simp +decide [unknownStateGame, preGame, scoreTextOp, preDashOp, fontStr]

/-- Claim C5 (amended): for a status state outside the three known
variants, the status bar falls back to the scheduled treatment (scheduled
colour, detail text or the placeholder), no live indicator and no
win-accent bar is drawn, and the score panels are not blank — but they
carry the numeric scores with the regular non-scheduled treatment, not the
scheduled dash. -/
theorem renderTicker_unknownState_spec (g : Game)
    (logos : Option String → Option Bytes) (d : Bytes → Bool)
    (h1 : g.status.state ≠ "pre") (h2 : g.status.state ≠ "in_progress")
    (h3 : g.status.state ≠ "final") :
    statusCenterTexts (renderTickerImage g logos d).ops =
      [preStatusOp (detailText g.status)]
    ∧ liveIndicatorOps (renderTickerImage g logos d).ops = []
    ∧ accentBars (renderTickerImage g logos d).ops = []
    ∧ scorePanelTexts (renderTickerImage g logos d).ops =
      [scoreTextOp g.score.away 0, scoreTextOp g.score.home 81] := by
  obtain ⟨hA, hP, hC, hL⟩ := renderTicker_filters g logos d
  refine ⟨?_, ?_, ?_, ?_⟩
  · rw [hC]
    simp [h2, h3]
  · rw [hL]
    simp [h2]
  · rw [hA]
    simp [h3]
  · rw [hP]
    simp [h1]

/-- Witness for the amended C5 at the concrete unknown-state game. -/
theorem renderTicker_unknownState_spec_witness :
    ((unknownStateGame.status.state ≠ "pre")
      ∧ (unknownStateGame.status.state ≠ "in_progress")
      ∧ (unknownStateGame.status.state ≠ "final"))
    ∧ (statusCenterTexts
        (renderTickerImage unknownStateGame noLogos noDecode).ops =
          [preStatusOp (detailText unknownStateGame.status)]
      ∧ liveIndicatorOps
          (renderTickerImage unknownStateGame noLogos noDecode).ops = []
      ∧ accentBars (renderTickerImage unknownStateGame noLogos noDecode).ops = []
      ∧ scorePanelTexts
          (renderTickerImage unknownStateGame noLogos noDecode).ops =
        [scoreTextOp unknownStateGame.score.away 0,
         scoreTextOp unknownStateGame.score.home 81]) :=
  ⟨⟨by decide, by decide, by decide⟩,
   renderTicker_unknownState_spec unknownStateGame noLogos noDecode
     (by decide) (by decide) (by decide)⟩
/-! ## Logo cache (src/utils/logoCache.ts) -/

/-- One character of `urlToFilename`: the regex `[^a-zA-Z0-9._-]` replaces
every character outside ASCII alphanumerics, dot, underscore and hyphen
with an underscore. -/
def safeChar (c : Char) : Char :=
  if c.isAlphanum || c = '.' || c = '_' || c = '-' then c else '_'

/-- `LogoCache.urlToFilename`: sanitise, keep the last 120 characters
(`slice(-120)`), and append `.png` unless a recognised extension is already
present. -/
def urlToFilename (url : String) : String :=
  let safe := String.map safeChar url
  let trimmed := if safe.length ≤ 120 then safe else safe.drop (safe.length - 120)
  if trimmed.endsWith ".png" || trimmed.endsWith ".svg" || trimmed.endsWith ".jpg"
  then trimmed
  else trimmed ++ ".png"

/-- The response of one HTTP GET in the network model: a 200 with a body, a
301/302 with an optional Location header, another status code, or a
transport error / timeout. -/
inductive HttpResp
| ok (body : Bytes)
| redirect (location : Option String)
| status (code : Nat)
| failed (msg : String)

/-- `LogoCache.download` over the network oracle `net`.  The source
recurses on every redirect with no depth bound (`this.download(redirect)`),
so the embedding carries an explicit recursion budget: `fuel = 0` stands
for a recursion that has not terminated within any chosen bound.  A
redirect response without a Location header falls through to the non-200
check and is rejected. -/
def LogoCache.download (net : String → HttpResp) : Nat → String → Except String Bytes
  | 0, _ => Except.error "redirect recursion did not terminate"
  | Nat.succ n, url =>
    match net url with
    | HttpResp.redirect (some loc) => LogoCache.download net n loc
    | HttpResp.redirect none => Except.error "HTTP 301"
    | HttpResp.ok body => Except.ok body
    | HttpResp.status c => Except.error ("HTTP " ++ toString c)
    | HttpResp.failed m => Except.error m

/-- `net` sends `u` through the successive redirects `ws` and ends at `v`. -/
def redirectsAlong (net : String → HttpResp) : String → List String → String → Prop
  | u, [], v => u = v
  | u, w :: ws, v => net u = HttpResp.redirect (some w) ∧ redirectsAlong net w ws v

/-- The in-memory and on-disk state of a `LogoCache` instance. -/
structure LogoCacheState where
  mem : List (String × Bytes)
  disk : List (String × Bytes)
deriving Repr, DecidableEq

/-- One I/O action performed by `getLogo`: a read of the logos directory, a
write to it, or an invocation of the network download chain. -/
inductive LogoEvent
| diskRead (name : String)
| diskWrite (name : String)
| netFetch (url : String)
deriving Repr, DecidableEq

/-- The blank-URL test of `getLogo` (falsy url, or trimming the url gives
the empty string): the trimmed string is empty exactly when every character
is whitespace (the absent case is the `none` branch of `getLogo`). -/
def isBlank (s : String) : Bool :=
  s.toList.all fun c => c.isWhitespace

/-- `LogoCache.getLogo`: absent or blank URL returns `null` at once; then
memory tier, disk tier (a successful read populates memory), and finally
the download chain `dl` (in the source, `this.download`).  On a successful
download the file write happens before the memory update and before the
return of the bytes; if the write throws (`writeOk` false) the catch block
logs and returns `null`, so neither tier is updated.  The result carries
the I/O events performed; a disk read failure is a miss (the catch falls
through to the download). -/
def LogoCache.getLogo (dl : String → Except String Bytes)
    (writeOk : String → Bool) (s : LogoCacheState) (urlq : Option String) :
    Option Bytes × LogoCacheState × List LogoEvent :=
  match urlq with
  | none => (none, s, [])
  | some url =>
    if isBlank url then (none, s, [])
    else
      match mapFind s.mem url with
      | some b => (some b, s, [])
      | none =>
        match mapFind s.disk (urlToFilename url) with
        | some b =>
          (some b, { s with mem := mapInsert s.mem url b },
            [LogoEvent.diskRead (urlToFilename url)])
        | none =>
          match dl url with
          | Except.ok b =>
            if writeOk (urlToFilename url) then
              (some b,
               { mem := mapInsert s.mem url b,
                 disk := mapInsert s.disk (urlToFilename url) b },
               [LogoEvent.diskRead (urlToFilename url), LogoEvent.netFetch url,
                LogoEvent.diskWrite (urlToFilename url)])
            else
              (none, s,
               [LogoEvent.diskRead (urlToFilename url), LogoEvent.netFetch url,
                LogoEvent.diskWrite (urlToFilename url)])
          | Except.error _ =>
            (none, s,
             [LogoEvent.diskRead (urlToFilename url), LogoEvent.netFetch url])

/-- The number of download-chain invocations in an event list. -/
def netFetchCount (events : List LogoEvent) : Nat :=
  events.countP fun e =>
    match e with
    | LogoEvent.netFetch _ => true
    | _ => false
/-! ## Claim C6: redirect handling in the network tier -/

/-- A network in which "a" redirects to "b", "b" redirects to "c", and "c"
serves a body: a chain of two redirect hops. -/
def twoHopNet : String → HttpResp := fun u =>
  if u = "a" then HttpResp.redirect (some "b")
  else if u = "b" then HttpResp.redirect (some "c")
  else if u = "c" then HttpResp.ok [7]
  else HttpResp.failed "unreachable"

/-- Counterexample to C6: the claim requires any redirect chain longer than
one hop to be treated as a resolution failure, but `download` follows the
two-hop chain a → b → c and succeeds. -/
theorem download_twoHop_counterexample :
    LogoCache.download twoHopNet 3 "a" = Except.ok [7]
    ∧ (Except.ok [7] : Except String Bytes) ≠ Except.error "HTTP 301" := by
  constructor
  · rfl
  · intro h
    exact Except.noConfusion h

/-- Claim C6 (amended): the network tier follows redirect chains of any
finite length, resolving each redirect target directly through the network
tier again (not through the three-tier procedure), with no depth bound: a
chain of k redirects ending in a 200 succeeds for every k, and on a cyclic
redirect the recursion never terminates (every recursion budget is
exhausted). -/
theorem download_redirect_spec :
    (∀ (net : String → HttpResp) (u v : String) (ws : List String) (b : Bytes)
        (fuel : Nat), redirectsAlong net u ws v → net v = HttpResp.ok b →
        ws.length < fuel → LogoCache.download net fuel u = Except.ok b)
    ∧ (∀ (net : String → HttpResp) (u : String),
        net u = HttpResp.redirect (some u) → ∀ fuel,
        LogoCache.download net fuel u =
          Except.error "redirect recursion did not terminate") := by
  constructor
  · intro net u v ws b fuel hchain hok hlen
    induction ws generalizing u fuel with
    | nil =>
      cases hchain
      cases fuel with
      | zero => omega
      | succ n => simp [LogoCache.download, hok]
    | cons w ws ih =>
      obtain ⟨hstep, hrest⟩ := hchain
      cases fuel with
      | zero => omega
      | succ n =>
        have hlen2 : ws.length < n := by
          simp at hlen
          omega
        simp [LogoCache.download, hstep]
        exact ih w n hrest hlen2
  · intro net u hloop fuel
    induction fuel with
    | zero => rfl
    | succ n ih =>
      simp [LogoCache.download, hloop]
      exact ih

/-- Witness for the amended C6: the two-hop chain resolves for budget 3,
and the self-redirecting network exhausts the budget 5. -/
theorem download_redirect_spec_witness :
    (redirectsAlong twoHopNet "a" ["b", "c"] "c"
      ∧ twoHopNet "c" = HttpResp.ok [7]
      ∧ (["b", "c"] : List String).length < 3
      ∧ LogoCache.download twoHopNet 3 "a" = Except.ok [7])
    ∧ ((fun _ => HttpResp.redirect (some "a") : String → HttpResp) "a" =
        HttpResp.redirect (some "a")
      ∧ LogoCache.download (fun _ => HttpResp.redirect (some "a")) 5 "a" =
        Except.error "redirect recursion did not terminate") :=
  ⟨⟨⟨rfl, rfl, rfl⟩, rfl, by decide,
    download_redirect_spec.1 twoHopNet "a" "c" ["b", "c"] [7] 3
      ⟨rfl, rfl, rfl⟩ rfl (by decide)⟩,
   ⟨rfl, download_redirect_spec.2 (fun _ => HttpResp.redirect (some "a")) "a"
      rfl 5⟩⟩
/-! ## Claim C7: resolver caching and the absent-input fast path -/

/-- A download chain that always fails (for instance an HTTP 500). -/
def failNet : String → Except String Bytes := fun _ => Except.error "HTTP 500"

/-- A download chain that always delivers the body `[1, 2]`. -/
def okNet : String → Except String Bytes := fun _ => Except.ok [1, 2]

/-- A disk whose writes always succeed. -/
def okWrite : String → Bool := fun _ => true

/-- A disk whose writes always fail. -/
def failWrite : String → Bool := fun _ => false

/-- Counterexample to C7: with persistent storage initially empty but the
download failing, two `getLogo` calls for the same URL perform two network
fetches, not one — nothing was cached by the failed first resolution. -/
theorem getLogo_twoFetches_counterexample :
    netFetchCount
        (LogoCache.getLogo failNet okWrite ⟨[], []⟩ (some "http://e/a.png")).2.2
      + netFetchCount
          (LogoCache.getLogo failNet okWrite
            (LogoCache.getLogo failNet okWrite ⟨[], []⟩
              (some "http://e/a.png")).2.1
            (some "http://e/a.png")).2.2 = 2
    ∧ (2 : Nat) ≠ 1 := by
  constructor
  · rfl
  · decide

/-- Claim C7 (amended): an absent or blank URL returns absent at once with
no I/O; and when the first resolution succeeds end to end (memory and disk
cold, download delivers bytes, the file write succeeds), the first call
performs exactly one network fetch and populates both tiers, and a second
call for the same URL is answered from the memory tier with no I/O at all —
one fetch across the two calls.  (After a failed first resolution nothing
is cached and a second call fetches again; see the counterexample.) -/
theorem getLogo_spec (dl : String → Except String Bytes)
    (writeOk : String → Bool) (s : LogoCacheState) (url : String) (b : Bytes)
    (hurl : isBlank url = false) (hmem : mapFind s.mem url = none)
    (hdisk : mapFind s.disk (urlToFilename url) = none)
    (hdl : dl url = Except.ok b) (hw : writeOk (urlToFilename url) = true) :
    (∀ t, LogoCache.getLogo dl writeOk t none = (none, t, []))
    ∧ (∀ t u, isBlank u = true →
        LogoCache.getLogo dl writeOk t (some u) = (none, t, []))
    ∧ LogoCache.getLogo dl writeOk s (some url) =
      (some b,
       ⟨mapInsert s.mem url b, mapInsert s.disk (urlToFilename url) b⟩,
       [LogoEvent.diskRead (urlToFilename url), LogoEvent.netFetch url,
        LogoEvent.diskWrite (urlToFilename url)])
    ∧ LogoCache.getLogo dl writeOk
        ⟨mapInsert s.mem url b, mapInsert s.disk (urlToFilename url) b⟩
        (some url) =
      (some b,
       ⟨mapInsert s.mem url b, mapInsert s.disk (urlToFilename url) b⟩, [])
    ∧ netFetchCount
        [LogoEvent.diskRead (urlToFilename url), LogoEvent.netFetch url,
         LogoEvent.diskWrite (urlToFilename url)] + netFetchCount [] = 1 := by
  refine ⟨?_, ?_, ?_, ?_, ?_⟩
  · intro t
    rfl
  · intro t u hu
    simp [LogoCache.getLogo, hu]
  · simp [LogoCache.getLogo, hurl, hmem, hdisk, hdl, hw]
  · simp [LogoCache.getLogo, hurl, mapFind_insert_self]
  · rfl

/-- Witness for the amended C7 at a concrete URL with the always-succeeding
network and disk. -/
theorem getLogo_spec_witness :
    (isBlank "http://e/a.png" = false
      ∧ mapFind (LogoCacheState.mem ⟨[], []⟩) "http://e/a.png" = none
      ∧ mapFind (LogoCacheState.disk ⟨[], []⟩)
          (urlToFilename "http://e/a.png") = none
      ∧ okNet "http://e/a.png" = Except.ok [1, 2]
      ∧ okWrite (urlToFilename "http://e/a.png") = true)
    ∧ ((∀ t, LogoCache.getLogo okNet okWrite t none = (none, t, []))
      ∧ (∀ t u, isBlank u = true →
          LogoCache.getLogo okNet okWrite t (some u) = (none, t, []))
      ∧ LogoCache.getLogo okNet okWrite ⟨[], []⟩ (some "http://e/a.png") =
        (some [1, 2],
         ⟨mapInsert [] "http://e/a.png" [1, 2],
          mapInsert [] (urlToFilename "http://e/a.png") [1, 2]⟩,
         [LogoEvent.diskRead (urlToFilename "http://e/a.png"),
          LogoEvent.netFetch "http://e/a.png",
          LogoEvent.diskWrite (urlToFilename "http://e/a.png")])
      ∧ LogoCache.getLogo okNet okWrite
          ⟨mapInsert [] "http://e/a.png" [1, 2],
           mapInsert [] (urlToFilename "http://e/a.png") [1, 2]⟩
          (some "http://e/a.png") =
        (some [1, 2],
         ⟨mapInsert [] "http://e/a.png" [1, 2],
          mapInsert [] (urlToFilename "http://e/a.png") [1, 2]⟩, [])
      ∧ netFetchCount
          [LogoEvent.diskRead (urlToFilename "http://e/a.png"),
           LogoEvent.netFetch "http://e/a.png",
           LogoEvent.diskWrite (urlToFilename "http://e/a.png")]
          + netFetchCount [] = 1) :=
  ⟨⟨by decide, rfl, rfl, rfl, rfl⟩,
   getLogo_spec okNet okWrite ⟨[], []⟩ "http://e/a.png" [1, 2]
     (by decide) rfl rfl rfl rfl⟩
/-! ## Claim C8: persistence-failure semantics -/

/-- Counterexample to C8: with a cold cache, a successful download and a
failing disk write, `getLogo` returns absent and leaves the memory tier
empty — the persistence failure prevented the in-memory update (the source
runs `memCache.set` only after `fs.writeFile` succeeds, and the catch block
swallows the successful download). -/
theorem logoCache_writeFailure_counterexample :
    okNet "http://e/logo.png" = Except.ok [1, 2]
    ∧ (LogoCache.getLogo okNet failWrite ⟨[], []⟩ (some "http://e/logo.png")).1 =
      none
    ∧ (LogoCache.getLogo okNet failWrite ⟨[], []⟩
        (some "http://e/logo.png")).2.1.mem = [] := by
  refine ⟨rfl, rfl, rfl⟩

/-- Claim C8 (amended): disk read failures degrade to absent without
raising for `loadFromDisk`.  For `ImageCache.set` the in-memory update
precedes the disk write, so a write failure leaves the fresh entry in place
and authoritative — but the failure is not caught inside `set` and
propagates to its caller.  For `LogoCache` a disk write failure is caught
and only logged, but it happens before the memory-tier insertion, so it
prevents the in-memory update and the call returns absent. -/
theorem persistenceFailure_spec :
    (∀ (diskRead : String → Except String Bytes) (id msg : String),
        diskRead (id ++ ".png") = Except.error msg →
        ImageCache.loadFromDisk diskRead id = none)
    ∧ (∀ (c : ImageCache) (now : Int) (id : String) (buffer : Bytes)
        (fp : String) (wr : Except String Unit),
        mapFind (ImageCache.setRun c now id buffer fp wr).1.cache id =
          some ⟨buffer, now, fp⟩
        ∧ (ImageCache.setRun c now id buffer fp wr).2 = wr)
    ∧ (∀ (dl : String → Except String Bytes) (writeOk : String → Bool)
        (s : LogoCacheState) (url : String) (b : Bytes),
        isBlank url = false → mapFind s.mem url = none →
        mapFind s.disk (urlToFilename url) = none →
        dl url = Except.ok b → writeOk (urlToFilename url) = false →
        LogoCache.getLogo dl writeOk s (some url) =
          (none, s,
           [LogoEvent.diskRead (urlToFilename url), LogoEvent.netFetch url,
            LogoEvent.diskWrite (urlToFilename url)])) := by
  refine ⟨?_, ?_, ?_⟩
  · intro diskRead id msg hread
    unfold ImageCache.loadFromDisk
    rw [hread]
  · intro c now id buffer fp wr
    exact ⟨mapFind_insert_self c.cache id ⟨buffer, now, fp⟩, rfl⟩
  · intro dl writeOk s url b hurl hmem hdisk hdl hw
    simp [LogoCache.getLogo, hurl, hmem, hdisk, hdl, hw]

/-- Witness for the amended C8 at concrete oracles: a failing read yields
absent, a failed write after `set` leaves the entry present and surfaces
the error, and the logo-cache write failure run from the counterexample
oracles. -/
theorem persistenceFailure_spec_witness :
    ((fun _ => Except.error "io error" : String → Except String Bytes)
        ("img1" ++ ".png") = Except.error "io error"
      ∧ ImageCache.loadFromDisk (fun _ => Except.error "io error") "img1" = none)
    ∧ (mapFind
        (ImageCache.setRun ⟨[], 1000⟩ 5 "g1" [3] "h"
          (Except.error "disk full")).1.cache "g1" = some ⟨[3], 5, "h"⟩
      ∧ (ImageCache.setRun ⟨[], 1000⟩ 5 "g1" [3] "h"
          (Except.error "disk full")).2 = Except.error "disk full")
    ∧ LogoCache.getLogo okNet failWrite ⟨[], []⟩ (some "http://e/logo.png") =
      (none, ⟨[], []⟩,
       [LogoEvent.diskRead (urlToFilename "http://e/logo.png"),
        LogoEvent.netFetch "http://e/logo.png",
        LogoEvent.diskWrite (urlToFilename "http://e/logo.png")]) :=
  ⟨⟨rfl,
    persistenceFailure_spec.1 (fun _ => Except.error "io error") "img1" "io error" rfl⟩,
   persistenceFailure_spec.2.1 ⟨[], 1000⟩ 5 "g1" [3] "h"
     (Except.error "disk full"),
   persistenceFailure_spec.2.2 okNet failWrite ⟨[], []⟩ "http://e/logo.png"
     [1, 2] rfl rfl rfl rfl rfl⟩
/-! ## Claim C9: the on-demand image endpoint (src/server.ts, /api/image) -/

/-- The distinct outcomes of the `/api/image` handler: 400 for a missing
id, 200 from the in-memory cache, 404 "Game not found", 200 freshly
rendered, 500 "Failed to render image". -/
inductive ApiImageOutcome
| missingId
| cached (b : Bytes)
| notFound
| rendered (b : Bytes)
| renderFailed
deriving Repr, DecidableEq

/-- The `/api/image` handler: reject a missing or empty id (`!id`), serve
the in-memory cache when it has the id, otherwise look the game up in
`currentGames`, answer 404 when absent, and otherwise render and `set`
(either step throwing is caught by the same try/catch and answered 500;
the `set` memory update survives a failing write, see `setRun`). -/
def apiImageHandler (now : Int) (cache : ImageCache) (games : List Game)
    (render : Game → Except String Bytes)
    (setWrite : String → Except String Unit) (idq : Option String) :
    ApiImageOutcome × ImageCache :=
  match idq with
  | none => (ApiImageOutcome.missingId, cache)
  | some id =>
    if id = "" then (ApiImageOutcome.missingId, cache)
    else
      match cache.get id with
      | some b => (ApiImageOutcome.cached b, cache)
      | none =>
        match games.find? (fun g2 => g2.id = id) with
        | none => (ApiImageOutcome.notFound, cache)
        | some g =>
          match render g with
          | Except.error _ => (ApiImageOutcome.renderFailed, cache)
          | Except.ok buffer =>
            match ImageCache.setRun cache now g.id buffer g.updatedAt
                (setWrite g.id) with
            | (c2, Except.ok _) => (ApiImageOutcome.rendered buffer, c2)
            | (c2, Except.error _) => (ApiImageOutcome.renderFailed, c2)

/-- A cache holding an entry for "g1" (used by the C9 counterexample). -/
def cacheWithG1 : ImageCache := ⟨[("g1", ⟨[9], 0, "h"⟩)], 1000⟩

/-- Counterexample to C9: when the in-memory cache still holds bytes for
"g1" but the current game list is empty (the game disappeared from the
feed), the handler serves the stale cached image instead of the distinct
"not found" outcome the claim requires. -/
theorem apiImage_staleCache_counterexample :
    (∀ g, g ∈ ([] : List Game) → g.id ≠ "g1")
    ∧ (apiImageHandler 0 cacheWithG1 [] (fun _ => Except.error "e")
        (fun _ => Except.ok ()) (some "g1")).1 = ApiImageOutcome.cached [9]
    ∧ ApiImageOutcome.cached [9] ≠ ApiImageOutcome.notFound := by
  refine ⟨?_, rfl, ?_⟩
  · intro g hg
    cases hg
  · intro h
    exact ApiImageOutcome.noConfusion h

/-- Claim C9 (amended): when the requested identifier is absent from the
in-memory cache, a missing Game yields the distinct "not found" outcome
and a render failure for an existing Game yields the distinct
render-failure outcome; the two outcomes differ.  But a cached entry is
served as-is, regardless of whether the identifier still exists in the
current game list. -/
theorem apiImage_spec (now : Int) (cache : ImageCache) (games : List Game)
    (render : Game → Except String Bytes)
    (setWrite : String → Except String Unit) (id : String)
    (hid : id ≠ "") (hmiss : cache.get id = none) :
    (games.find? (fun g2 => g2.id = id) = none ↔ ∀ g ∈ games, g.id ≠ id)
    ∧ ((∀ g ∈ games, g.id ≠ id) →
      (apiImageHandler now cache games render setWrite (some id)).1 =
        ApiImageOutcome.notFound)
    ∧ (∀ g msg, games.find? (fun g2 => g2.id = id) = some g →
      render g = Except.error msg →
      (apiImageHandler now cache games render setWrite (some id)).1 =
        ApiImageOutcome.renderFailed)
    ∧ ApiImageOutcome.notFound ≠ ApiImageOutcome.renderFailed
    ∧ (∀ (c2 : ImageCache) (b : Bytes), c2.get id = some b →
      (apiImageHandler now c2 games render setWrite (some id)).1 =
        ApiImageOutcome.cached b) := by
  refine ⟨?_, ?_, ?_, ?_, ?_⟩
  · rw [List.find?_eq_none]
    constructor
    · intro h g hg
      have hb := h g hg
      simpa using hb
    · intro h g hg
      simpa using h g hg
  · intro hnone
    have hfind : games.find? (fun g2 => g2.id = id) = none := by
      rw [List.find?_eq_none]
      intro g hg
      simpa using hnone g hg
    simp [apiImageHandler, hid, hmiss, hfind]
  · intro g msg hfind hrender
    simp [apiImageHandler, hid, hmiss, hfind, hrender]
  · intro h
    exact ApiImageOutcome.noConfusion h
  · intro c2 b hc2
    simp [apiImageHandler, hid, hc2]

/-- Witness for the amended C9 at concrete data: the empty game list yields
"not found" for the uncached id "g2", a failing render for a present game
yields the render-failure outcome, and a cached id is served. -/
theorem apiImage_spec_witness :
    (("g2" : String) ≠ "" ∧ ImageCache.get ⟨[], 1000⟩ "g2" = none)
    ∧ ((apiImageHandler 0 (⟨[], 1000⟩ : ImageCache) []
        (fun _ => Except.error "boom") (fun _ => Except.ok ())
        (some "g2")).1 = ApiImageOutcome.notFound
      ∧ (apiImageHandler 0 (⟨[], 1000⟩ : ImageCache) [finalGame]
          (fun _ => Except.error "boom") (fun _ => Except.ok ())
          (some "g1")).1 = ApiImageOutcome.renderFailed
      ∧ (apiImageHandler 0 cacheWithG1 []
          (fun _ => Except.error "boom") (fun _ => Except.ok ())
          (some "g1")).1 = ApiImageOutcome.cached [9]) :=
  ⟨⟨by decide, rfl⟩,
   ⟨(apiImage_spec 0 ⟨[], 1000⟩ [] (fun _ => Except.error "boom")
       (fun _ => Except.ok ()) "g2" (by decide) rfl).2.1 (fun g hg => by cases hg),
    (apiImage_spec 0 ⟨[], 1000⟩ [finalGame] (fun _ => Except.error "boom")
       (fun _ => Except.ok ()) "g1" (by decide) rfl).2.2.1 finalGame "boom"
      rfl rfl,
    (apiImage_spec 0 ⟨[], 1000⟩ [] (fun _ => Except.error "boom")
       (fun _ => Except.ok ()) "g1" (by decide) rfl).2.2.2.2 cacheWithG1 [9]
      rfl⟩⟩
